import Mathlib

/-!
Shallow embedding of the core of the `shopping_tool` package
(`server.py` confirmation gate, `element_resolver.py` two-tier selector
resolution, `browser.py` tab/session management), with theorems checking the
claims of the specification against the embedded code.

Python strings are modelled as Lean `String` (a structure over `List Char`);
ASCII-level models of the Python `str` builtins used by the code
(`lower`, `upper`, `strip`, `find`, slicing, the `in` operator) are defined
first.  Machine-level details that the claims do not touch (the event loop,
logging, the actual network transport) are abstracted: each transport attempt
is an oracle value, and randomness (`secrets.token_bytes`) is an explicit
byte-list parameter.
-/

set_option autoImplicit false

namespace ShoppingTool

/-! ### Models of Python `str` builtins -/

/-- Model of Python `str.lower` for ASCII text: lower-case every character. -/
def pyLower (s : String) : String :=
  String.mk (s.data.map Char.toLower)

/-- Model of Python `str.upper` for ASCII text: upper-case every character. -/
def pyUpper (s : String) : String :=
  String.mk (s.data.map Char.toUpper)

/-- The whitespace characters stripped by Python `str.strip()` (ASCII part:
space, tab, newline, carriage return, vertical tab, form feed). -/
def isPySpace (c : Char) : Bool :=
  c = ' ' || c = '\t' || c = '\n' || c = '\r' || c = Char.ofNat 11 || c = Char.ofNat 12

/-- Model of Python `str.strip()`: drop leading and trailing whitespace. -/
def pyStrip (s : String) : String :=
  String.mk (((s.data.dropWhile isPySpace).reverse.dropWhile isPySpace).reverse)

/-- Helper for the Python `in` operator on strings: does `pat` occur as a
contiguous run of `text`? -/
def occursIn (pat : List Char) : List Char → Bool
  | [] => pat.isPrefixOf []
  | c :: rest => pat.isPrefixOf (c :: rest) || occursIn pat rest

/-- Model of the Python expression `pat in s` for strings. -/
def pyContains (s pat : String) : Bool :=
  occursIn pat.data s.data

/-- Helper for Python `str.find`: first index at or after `i` where `pat`
begins in the remaining text, scanning left to right. -/
def findFrom (pat : List Char) : List Char → Nat → Option Nat
  | [], i => if pat.isPrefixOf [] then some i else none
  | c :: rest, i => if pat.isPrefixOf (c :: rest) then some i else findFrom pat rest (i + 1)

/-- Model of Python `s.find(pat)`: index of the first occurrence, `-1` if
absent. -/
def pyFind (s pat : String) : Int :=
  match findFrom pat.data s.data 0 with
  | some i => (i : Int)
  | none => -1

/-- Model of the Python slice `s[a:b]` for `0 ≤ a ≤ b` (clamping at the end
of the string, as Python does). -/
def pySlice (s : String) (a b : Nat) : String :=
  String.mk ((s.data.drop a).take (b - a))

/-! ### Association-list model of a Python `dict`

`server.py` keeps pending confirmations in a process-wide
`dict[str, dict]`.  A `dict` is modelled as an association list carrying its
entries in insertion order; keys of reachable maps are distinct. -/

/-- Model of `d[k]` lookup / `k in d`: value at the first entry of key `k`. -/
def dictGet {α : Type} : List (String × α) → String → Option α
  | [], _ => none
  | (k', v) :: rest, k => if k' = k then some v else dictGet rest k

/-- Model of the assignment `d[k] = v`: replace the value at an existing key
in place, or append a new entry. -/
def dictSet {α : Type} : List (String × α) → String → α → List (String × α)
  | [], k, v => [(k, v)]
  | (k', v') :: rest, k, v =>
    if k' = k then (k, v) :: rest else (k', v') :: dictSet rest k v

/-- Effect of `d.pop(k)` on the map: drop the first entry of key `k`. -/
def dictPop {α : Type} : List (String × α) → String → List (String × α)
  | [], _ => []
  | (k', v') :: rest, k => if k' = k then rest else (k', v') :: dictPop rest k

/-- Keys of the map, in order. -/
def dictKeys {α : Type} (m : List (String × α)) : List String :=
  m.map Prod.fst

/-! ### Confirmation gate (`server.py`)

Times (`time.time()` values) are modelled as integers; only differences are
ever compared against the TTL. -/

/-- One value of the `_pending_confirmations` dict:
`{"created_at": ..., "url": ...}`. -/
structure PendingEntry where
  created_at : Int
  url : String
deriving DecidableEq, Repr

/-- The process-wide `_pending_confirmations` dict. -/
abbrev PendingMap := List (String × PendingEntry)

/-- `_CONFIRMATION_TTL = 300` (5 minutes). -/
def CONFIRMATION_TTL : Int := 300

/-- The lower-case hexadecimal digits, as produced by `secrets.token_hex`. -/
def hexChars : List Char :=
  "0123456789abcdef".data

/-- Hex digit for a value below 16. -/
def hexDigit (n : Nat) : Char :=
  hexChars.getD n '0'

/-- Model of `secrets.token_hex(nbytes)` applied to the drawn bytes: each byte
becomes two lower-case hex digits. -/
def token_hex (bytes : List Nat) : String :=
  String.mk (bytes.flatMap (fun b => [hexDigit (b / 16), hexDigit (b % 16)]))

/-- Model of `_generate_confirmation_code()` = `secrets.token_hex(3).upper()`,
with the three random bytes passed explicitly. -/
def _generate_confirmation_code (bytes : List Nat) : String :=
  pyUpper (token_hex bytes)

/-- Model of `_cleanup_expired_confirmations()` at time `now`: delete every
entry whose age exceeds the TTL (strictly), keeping the rest in order. -/
def _cleanup_expired_confirmations (now : Int) (m : PendingMap) : PendingMap :=
  m.filter (fun p => decide (¬ now - p.2.created_at > CONFIRMATION_TTL))

/-- Result of `_handle_confirm_purchase`. -/
inductive ConfirmResult where
  | rejected
  | accepted (code : String) (checkout_url : String)
deriving DecidableEq, Repr

/-- Normalisation `args["confirmation_code"].strip().upper()` applied by
`_handle_confirm_purchase` to the supplied code. -/
def normCode (raw : String) : String :=
  pyUpper (pyStrip raw)

/-- Model of `_handle_confirm_purchase`: normalise the supplied code, run the
expiry sweep, reject on a missing key, otherwise pop the entry and accept. -/
def _handle_confirm_purchase (raw : String) (now : Int) (m : PendingMap) :
    ConfirmResult × PendingMap :=
  match dictGet (_cleanup_expired_confirmations now m) (normCode raw) with
  | none => (ConfirmResult.rejected, _cleanup_expired_confirmations now m)
  | some entry =>
    (ConfirmResult.accepted (normCode raw) entry.url,
     dictPop (_cleanup_expired_confirmations now m) (normCode raw))

/-- Model of `_handle_preview_checkout`: if no profile exists the state is
untouched and no code is issued; otherwise run the expiry sweep and store the
freshly generated code with the current time.  The generated code is passed
explicitly (randomness externalised). -/
def _handle_preview_checkout (profileExists : Bool) (code : String) (url : String)
    (now : Int) (m : PendingMap) : Option String × PendingMap :=
  if profileExists then
    (some code,
     dictSet (_cleanup_expired_confirmations now m) code { created_at := now, url := url })
  else
    (none, m)

/-! ### Element resolver (`element_resolver.py`) -/

/-- `RETAILER_URL_PATTERNS`, in source (insertion) order. -/
def RETAILER_URL_PATTERNS : List (String × List String) :=
  [("amazon", ["amazon.com", "amazon.co.uk", "amazon.ca"]),
   ("bestbuy", ["bestbuy.com"]),
   ("walmart", ["walmart.com"]),
   ("target", ["target.com"]),
   ("newegg", ["newegg.com"]),
   ("ebay", ["ebay.com"])]

/-- The `"amazon"` entry of `KNOWN_SELECTORS`. -/
def amazonSelectors : List (String × String) :=
  [("search box", "#twotabsearchtextbox"),
     ("search field", "#twotabsearchtextbox"),
     ("search input", "#twotabsearchtextbox"),
     ("search bar", "#twotabsearchtextbox"),
     ("search amazon", "#twotabsearchtextbox"),
     ("search button", "#nav-search-submit-button"),
     ("submit search", "#nav-search-submit-button"),
     ("add to cart", "#add-to-cart-button"),
     ("add to cart button", "#add-to-cart-button"),
     ("buy now", "#buy-now-button"),
     ("buy now button", "#buy-now-button"),
     ("quantity", "select#quantity"),
     ("quantity selector", "select#quantity"),
     ("quantity dropdown", "select#quantity"),
     ("see all reviews", "a[data-hook=\"see-all-reviews-link-foot\"]"),
     ("all reviews", "a[data-hook=\"see-all-reviews-link-foot\"]"),
     ("reviews link", "a[data-hook=\"see-all-reviews-link-foot\"]"),
   ("next page", "ul.a-pagination li.a-last a"),
   ("next", "ul.a-pagination li.a-last a")]

/-- The `"bestbuy"` entry of `KNOWN_SELECTORS`. -/
def bestbuySelectors : List (String × String) :=
  [("search box", "#gh-search-input"),
   ("search field", "#gh-search-input"),
   ("add to cart", "button.add-to-cart-button"),
   ("add to cart button", "button.add-to-cart-button")]

/-- The `"walmart"` entry of `KNOWN_SELECTORS`. -/
def walmartSelectors : List (String × String) :=
  [("search box", "input[type=\"search\"]"),
   ("search field", "input[type=\"search\"]"),
   ("add to cart", "button[data-testid=\"add-to-cart-button\"]"),
   ("add to cart button", "button[data-testid=\"add-to-cart-button\"]")]

/-- `KNOWN_SELECTORS`: the fast-path keyword → CSS-selector tables, in source
order. -/
def KNOWN_SELECTORS : List (String × List (String × String)) :=
  [("amazon", amazonSelectors),
   ("bestbuy", bestbuySelectors),
   ("walmart", walmartSelectors)]

/-- Model of `_detect_retailer(url)`: lower-case the URL and return the first
retailer one of whose patterns occurs in it. -/
def _detect_retailer (url : String) : Option String :=
  let url_lower := pyLower url
  (RETAILER_URL_PATTERNS.find? (fun p => p.2.any (fun pat => pyContains url_lower pat))).map
    Prod.fst

/-- Model of `_fast_resolve(description, url)`: look the lower-cased, stripped
description up in the table of the detected retailer. -/
def _fast_resolve (description url : String) : Option String :=
  match _detect_retailer url with
  | none => none
  | some retailer =>
    match dictGet KNOWN_SELECTORS retailer with
    | none => none
    | some table => dictGet table (pyStrip (pyLower description))

/-- Python truthiness of an `Optional[str]`: `None` and `""` are falsy. -/
def truthyOpt (o : Option String) : Bool :=
  match o with
  | none => false
  | some s => !(s = "")

/-- Outcome of one transport attempt in the retry loop, after awaiting
`provider.run` under the 60 s `wait_for` and (on a reply) parsing it:
a well-formed JSON object (its `found` truthiness and `selector` string), an
empty reply, a `json.JSONDecodeError`, an `asyncio.TimeoutError`, or any
other transport exception. -/
inductive Outcome where
  | parsed (found : Bool) (selector : String)
  | empty
  | parseError
  | timeout
  | transportError
deriving DecidableEq, Repr

/-- Observable result of a resolver run: the returned selector (or `None`),
how many transport attempts were made, and the `asyncio.sleep` backoff delays
performed between attempts (in seconds, in order). -/
structure RunResult where
  result : Option String
  attempts : Nat
  sleeps : List Nat
deriving DecidableEq, Repr

/-- The backoff delay `(attempt + 1) * 2` slept before a retry. -/
def retryDelay (attempt : Nat) : Nat :=
  (attempt + 1) * 2

/-- Model of the `for attempt in range(3)` retry loop of `resolve_selector`,
with `fuel` iterations remaining and `attempt` the current index.  Mirrors the
source branch for branch: a parsed reply returns immediately (the selector on
`found`, `None` otherwise); an empty reply, a parse error or another
transport error sleeps `(attempt + 1) * 2` and retries while `attempt < 2`;
a timeout retries without sleeping; on the last attempt every failure returns
`None`. -/
def resolveLoop (oracle : Nat → Outcome) : Nat → Nat → RunResult
  | 0, _ => { result := none, attempts := 0, sleeps := [] }
  | fuel + 1, attempt =>
    match oracle attempt with
    | Outcome.parsed true sel => { result := some sel, attempts := 1, sleeps := [] }
    | Outcome.parsed false _ => { result := none, attempts := 1, sleeps := [] }
    | Outcome.timeout =>
      if attempt < 2 then
        let r := resolveLoop oracle fuel (attempt + 1)
        { r with attempts := r.attempts + 1 }
      else { result := none, attempts := 1, sleeps := [] }
    | Outcome.empty =>
      if attempt < 2 then
        let r := resolveLoop oracle fuel (attempt + 1)
        { result := r.result, attempts := r.attempts + 1, sleeps := retryDelay attempt :: r.sleeps }
      else { result := none, attempts := 1, sleeps := [] }
    | Outcome.parseError =>
      if attempt < 2 then
        let r := resolveLoop oracle fuel (attempt + 1)
        { result := r.result, attempts := r.attempts + 1, sleeps := retryDelay attempt :: r.sleeps }
      else { result := none, attempts := 1, sleeps := [] }
    | Outcome.transportError =>
      if attempt < 2 then
        let r := resolveLoop oracle fuel (attempt + 1)
        { result := r.result, attempts := r.attempts + 1, sleeps := retryDelay attempt :: r.sleeps }
      else { result := none, attempts := 1, sleeps := [] }

/-- Model of `resolve_selector(description, element_type, page_elements)`:
fast path first (its hit returned when truthy), then the `get_provider`
guard (`providerOk = false` models the `ValueError` on a missing API key),
then the three-attempt transport loop driven by `oracle`. -/
def resolve_selector (description url : String) (providerOk : Bool)
    (oracle : Nat → Outcome) : RunResult :=
  let fast := _fast_resolve description url
  if truthyOpt fast then { result := fast, attempts := 0, sleeps := [] }
  else if providerOk then resolveLoop oracle 3 0
  else { result := none, attempts := 0, sleeps := [] }

/-- The marker `"\n<!-- HTML truncated -->"` appended after truncation. -/
def truncMarker : String :=
  "\n<!-- HTML truncated -->"

/-- The pattern `"<body"` searched for when truncating. -/
def bodyPat : String :=
  "<body"

/-- The bound `max_length = 100_000`. -/
def MAX_HTML : Nat := 100000

/-- The slice kept by the truncation branch of `resolve_selector`:
`page_html[body_start : body_start + 100_000]` when `find("<body") > 0`, the
plain `page_html[:100_000]` head otherwise. -/
def truncCore (page_html : String) : String :=
  if pyFind page_html bodyPat > 0 then
    pySlice page_html (pyFind page_html bodyPat).toNat
      ((pyFind page_html bodyPat).toNat + MAX_HTML)
  else
    pySlice page_html 0 MAX_HTML

/-- Model of the HTML-truncation block of `resolve_selector`: markup at most
100 000 characters long is kept as is; longer markup is cut to `truncCore`
with the marker appended. -/
def truncate_html (page_html : String) : String :=
  if page_html.length > MAX_HTML then truncCore page_html ++ truncMarker
  else page_html

/-- The text of the resolver user prompt before the markup. -/
def promptBefore (description element_type : String) : String :=
  "Find the element matching this description:\n\"" ++ description ++
    "\"\n\nElement type hint: " ++ element_type ++
    "\n\nPAGE HTML:\n```html\n"

/-- The text of the resolver user prompt after the markup. -/
def promptAfter : String :=
  "\n```\n\nReturn JSON with selector, found, and reason."

/-- The user prompt built by `resolve_selector`, as the f-string concatenation
around the (possibly truncated) markup. -/
def build_prompt (description element_type page_html : String) : String :=
  promptBefore description element_type ++ truncate_html page_html ++ promptAfter

/-- The retriable outcomes of one attempt: the four failure modes the loop
retries on (or gives up on, on the last attempt). -/
def failsAttempt (o : Outcome) : Prop :=
  o = Outcome.empty ∨ o = Outcome.parseError ∨ o = Outcome.timeout ∨ o = Outcome.transportError

/-- The backoff delays the loop actually sleeps after a failed attempt at
index `attempt`: the `(attempt + 1) * 2` delay for an empty reply, a parse
error or a transport error; nothing for a timeout. -/
def nonTimeoutDelay (o : Outcome) (attempt : Nat) : List Nat :=
  if o = Outcome.timeout then [] else [retryDelay attempt]

/-! ### Browser session manager (`browser.py`)

Playwright handles are abstracted: a `Tab` keeps the data the embedded
operations observe (its URL, title, and whether reading them still works),
and the engine/context/driver are tracked as open/closed flags.  Exceptions
are `Except Unit`; a sub-step that may raise is an `attempt flag` action. -/

/-- One open page handle. -/
structure Tab where
  url : String
  title : String
  alive : Bool
deriving DecidableEq, Repr

/-- The mutable fields of `BrowserManager`. -/
structure BrowserState where
  tabs : List Tab
  active_tab_index : Int
  contextOpen : Bool
  browserOpen : Bool
  playwrightOpen : Bool
deriving DecidableEq, Repr

/-- Model of `BrowserManager.__init__`: no engine, no tabs, index `-1`. -/
def initState : BrowserState :=
  { tabs := [], active_tab_index := -1,
    contextOpen := false, browserOpen := false, playwrightOpen := false }

/-- Model of `new_page(url)`: ensure the engine and context (this mutation
happens before navigation), navigate — `navOk = false` models `page.goto`
raising, in which case the error propagates with the tab list and active
index untouched — then append the tab and make it active. -/
def new_page (st : BrowserState) (navOk : Bool) (p : Tab) :
    Except Unit Tab × BrowserState :=
  let st1 := { st with contextOpen := true, browserOpen := true, playwrightOpen := true }
  if navOk then
    (Except.ok p,
     { st1 with tabs := st1.tabs ++ [p], active_tab_index := (st1.tabs.length : Int) })
  else
    (Except.error (), st1)

/-- Model of `open_in_new_tab(url)`: delegates to `new_page`. -/
def open_in_new_tab (st : BrowserState) (navOk : Bool) (p : Tab) :
    Except Unit Tab × BrowserState :=
  new_page st navOk p

/-- Model of `switch_tab(index)`: bounds-checked; on a valid index set it
active and return the page, otherwise return `None` with no state change. -/
def switch_tab (st : BrowserState) (index : Int) : Option Tab × BrowserState :=
  if 0 ≤ index ∧ index < (st.tabs.length : Int) then
    (st.tabs.get? index.toNat, { st with active_tab_index := index })
  else
    (none, st)

/-- One row of the reply of `get_tab_list()`. -/
structure TabInfo where
  index : Nat
  url : String
  title : String
  active : Bool
deriving DecidableEq, Repr

/-- Model of `get_tab_list()`: per tab, its URL/title — degraded to the
`"(closed)"` sentinel when reading them raises — and the active marker.  The
state is returned unchanged (the operation only reads it). -/
def get_tab_list (st : BrowserState) : List TabInfo × BrowserState :=
  (st.tabs.enum.map (fun p =>
    { index := p.1,
      url := if p.2.alive then p.2.url else "(closed)",
      title := if p.2.alive then p.2.title else "(closed)",
      active := (p.1 : Int) = st.active_tab_index }),
   st)

/-- An action that raises iff `fail` is true. -/
def attempt (fail : Bool) : Except Unit Unit :=
  if fail then Except.error () else Except.ok ()

/-- Model of a `try: ... except Exception: pass` block around one action. -/
def tryPass (act : Except Unit Unit) : Except Unit Unit :=
  match act with
  | Except.ok _ => Except.ok ()
  | Except.error _ => Except.ok ()

/-- Which sub-closures fail during teardown: `pageFail i` is `page.close()` of tab `i`, the rest are context, browser and Playwright driver. -/
structure CloseFailures where
  pageFail : Nat → Bool
  contextFail : Bool
  browserFail : Bool
  playwrightFail : Bool

/-- The `for page in self._tabs: try page.close() except: pass` loop. -/
def closeTabsLoop (fails : Nat → Bool) : Nat → List Tab → Except Unit Unit
  | _, [] => Except.ok ()
  | i, _ :: rest => do
    tryPass (attempt (fails i))
    closeTabsLoop fails (i + 1) rest

/-- Model of `close()`: best-effort close of every tab, then clear the tab
list and reset the index, then close context, browser and Playwright in
order, each under `try/except pass`, each handle cleared afterwards. -/
def close (f : CloseFailures) (st : BrowserState) : Except Unit BrowserState := do
  closeTabsLoop f.pageFail 0 st.tabs
  let st1 : BrowserState := { st with tabs := [], active_tab_index := -1 }
  let st2 ←
    if st1.contextOpen then do
      tryPass (attempt f.contextFail)
      pure { st1 with contextOpen := false }
    else pure st1
  let st3 ←
    if st2.browserOpen then do
      tryPass (attempt f.browserFail)
      pure { st2 with browserOpen := false }
    else pure st2
  let st4 ←
    if st3.playwrightOpen then do
      tryPass (attempt f.playwrightFail)
      pure { st3 with playwrightOpen := false }
    else pure st3
  pure st4

/-- The session invariant of the spec: the active index is a valid position
iff the tab sequence is non-empty, and is the `-1` sentinel iff it is
empty. -/
def TabInv (st : BrowserState) : Prop :=
  ((0 ≤ st.active_tab_index ∧ st.active_tab_index < (st.tabs.length : Int)) ↔ st.tabs ≠ []) ∧
  (st.active_tab_index = -1 ↔ st.tabs = [])

instance (st : BrowserState) : Decidable (TabInv st) := by
  unfold TabInv
  infer_instance

/-- The state `close()` always leaves behind: no tabs, sentinel index, every
handle cleared. -/
def closedState : BrowserState :=
  { tabs := [], active_tab_index := -1,
    contextOpen := false, browserOpen := false, playwrightOpen := false }

/-! ### Concrete scenario inputs used by counterexamples and witnesses -/

/-- The upper-case hexadecimal alphabet the confirmation codes are drawn
from. -/
def upperHexChars : List Char :=
  "0123456789ABCDEF".data

/-- A pending map holding one other confirmation, issued at time 0. -/
def c1Map : PendingMap :=
  [("OLDCODE", { created_at := 0, url := "old" })]

/-- The map after `preview_checkout` issues `"ABCDEF"` at time 0 on top of
`c1Map`. -/
def c1AfterPreview : PendingMap :=
  (_handle_preview_checkout true "ABCDEF" "cart" 0 c1Map).2

/-- The map after the first (successful) confirm of `"ABCDEF"` at time 10. -/
def c1AfterFirst : PendingMap :=
  (_handle_confirm_purchase "ABCDEF" 10 c1AfterPreview).2

/-- A pending map holding one confirmation issued at time 0, used to
instantiate expiry statements. -/
def c2Map : PendingMap :=
  [("AAAAAA", { created_at := 0, url := "u" })]

/-- A page markup of 100 001 characters whose `<body` tag starts at index 2,
so that only 99 999 characters remain from the body region on. -/
def htmlCE : String :=
  String.mk (['x', 'y', '<', 'b', 'o', 'd', 'y', '>'] ++ List.replicate 99993 'a')

/-- A tab used by concrete browser scenarios. -/
def tabA : Tab :=
  { url := "https://example.com/a", title := "A", alive := true }

/-! ### Helper lemmas about the dict model -/

theorem dictGet_dictSet_self {α : Type} (m : List (String × α)) (k : String) (v : α) :
    dictGet (dictSet m k v) k = some v := by
  induction m with
  | nil => simp [dictSet, dictGet]
  | cons q rest ih =>
    obtain ⟨k', v'⟩ := q
    by_cases h : k' = k
    · simp [dictSet, dictGet, h]
    · simp [dictSet, dictGet, h, ih]

theorem dictGet_filter_some {α : Type} (p : String × α → Bool) (m : List (String × α))
    (k : String) (v : α) (h : dictGet m k = some v) (hp : p (k, v) = true) :
    dictGet (m.filter p) k = some v := by
  induction m with
  | nil => simp [dictGet] at h
  | cons q rest ih =>
    obtain ⟨k', v'⟩ := q
    by_cases hk : k' = k
    · subst hk
      simp [dictGet] at h
      subst h
      simp [List.filter_cons, hp, dictGet]
    · simp [dictGet, hk] at h
      by_cases hq : p (k', v') = true
      · simp [List.filter_cons, hq, dictGet, hk, ih h]
      · simp at hq
        simp [List.filter_cons, hq, ih h]

theorem dictGet_filter_none {α : Type} (p : String × α → Bool) (m : List (String × α))
    (k : String) (h : dictGet m k = none) :
    dictGet (m.filter p) k = none := by
  induction m with
  | nil => simp [dictGet]
  | cons q rest ih =>
    obtain ⟨k', v'⟩ := q
    by_cases hk : k' = k
    · simp [dictGet, hk] at h
    · simp [dictGet, hk] at h
      by_cases hq : p (k', v') = true
      · simp [List.filter_cons, hq, dictGet, hk, ih h]
      · simp at hq
        simp [List.filter_cons, hq, ih h]

theorem dictKeys_cons {α : Type} (k : String) (v : α) (rest : List (String × α)) :
    dictKeys ((k, v) :: rest) = k :: dictKeys rest := rfl

theorem dictGet_eq_none_of_not_mem {α : Type} (m : List (String × α)) (k : String)
    (h : k ∉ dictKeys m) : dictGet m k = none := by
  induction m with
  | nil => simp [dictGet]
  | cons q rest ih =>
    obtain ⟨k', v'⟩ := q
    rw [dictKeys_cons] at h
    have h1 : ¬ k' = k := fun e => h (e ▸ List.mem_cons_self _ _)
    have h2 : k ∉ dictKeys rest := fun e => h (List.mem_cons_of_mem _ e)
    simp [dictGet, h1, ih h2]

theorem dictGet_filter_not {α : Type} (p : String × α → Bool) (m : List (String × α))
    (k : String) (v : α) (hnd : (dictKeys m).Nodup)
    (h : dictGet m k = some v) (hp : p (k, v) = false) :
    dictGet (m.filter p) k = none := by
  induction m with
  | nil => simp [dictGet] at h
  | cons q rest ih =>
    obtain ⟨k', v'⟩ := q
    rw [dictKeys_cons] at hnd
    obtain ⟨hnotin, hnd2⟩ := List.nodup_cons.mp hnd
    by_cases hk : k' = k
    · subst hk
      simp [dictGet] at h
      subst h
      simp [List.filter_cons, hp]
      exact dictGet_filter_none p rest k' (dictGet_eq_none_of_not_mem rest k' hnotin)
    · simp [dictGet, hk] at h
      by_cases hq : p (k', v') = true
      · simp [List.filter_cons, hq, dictGet, hk, ih hnd2 h]
      · simp at hq
        simp [List.filter_cons, hq, ih hnd2 h]

theorem mem_keys_dictSet {α : Type} (m : List (String × α)) (k x : String) (v : α)
    (h : x ∈ dictKeys (dictSet m k v)) : x = k ∨ x ∈ dictKeys m := by
  induction m with
  | nil =>
    rw [show dictSet ([] : List (String × α)) k v = [(k, v)] from rfl, dictKeys_cons] at h
    rcases List.mem_cons.mp h with h | h
    · exact Or.inl h
    · rw [show dictKeys ([] : List (String × α)) = [] from rfl] at h
      simp at h
  | cons q rest ih =>
    obtain ⟨k', v'⟩ := q
    by_cases hk : k' = k
    · subst hk
      have e : dictKeys (dictSet ((k', v') :: rest) k' v) = k' :: dictKeys rest := by
        simp [dictSet, dictKeys_cons]
      rw [e] at h
      rw [dictKeys_cons]
      exact Or.inr h
    · have e : dictKeys (dictSet ((k', v') :: rest) k v) = k' :: dictKeys (dictSet rest k v) := by
        simp [dictSet, hk, dictKeys_cons]
      rw [e] at h
      rcases List.mem_cons.mp h with h | h
      · right
        rw [dictKeys_cons]
        subst h
        exact List.mem_cons_self _ _
      · rcases ih h with h2 | h2
        · exact Or.inl h2
        · right
          rw [dictKeys_cons]
          exact List.mem_cons_of_mem _ h2

theorem nodup_keys_dictSet {α : Type} (m : List (String × α)) (k : String) (v : α)
    (hnd : (dictKeys m).Nodup) : (dictKeys (dictSet m k v)).Nodup := by
  induction m with
  | nil => simp [dictSet, dictKeys]
  | cons q rest ih =>
    obtain ⟨k', v'⟩ := q
    rw [dictKeys_cons] at hnd
    obtain ⟨hnotin, hnd2⟩ := List.nodup_cons.mp hnd
    by_cases hk : k' = k
    · subst hk
      have e : dictKeys (dictSet ((k', v') :: rest) k' v) = k' :: dictKeys rest := by
        simp [dictSet, dictKeys_cons]
      rw [e]
      exact List.nodup_cons.mpr ⟨hnotin, hnd2⟩
    · have e : dictKeys (dictSet ((k', v') :: rest) k v) = k' :: dictKeys (dictSet rest k v) := by
        simp [dictSet, hk, dictKeys_cons]
      rw [e]
      refine List.nodup_cons.mpr ⟨fun hmem => ?_, ih hnd2⟩
      rcases mem_keys_dictSet rest k k' v hmem with h | h
      · exact hk h
      · exact hnotin h

theorem nodup_keys_filter {α : Type} (p : String × α → Bool) (m : List (String × α))
    (hnd : (dictKeys m).Nodup) : (dictKeys (m.filter p)).Nodup :=
  List.Nodup.sublist (List.Sublist.map Prod.fst (List.filter_sublist m)) hnd

theorem dictGet_dictPop_self {α : Type} (m : List (String × α)) (k : String)
    (hnd : (dictKeys m).Nodup) : dictGet (dictPop m k) k = none := by
  induction m with
  | nil => simp [dictPop, dictGet]
  | cons q rest ih =>
    obtain ⟨k', v'⟩ := q
    rw [dictKeys_cons] at hnd
    obtain ⟨hnotin, hnd2⟩ := List.nodup_cons.mp hnd
    by_cases hk : k' = k
    · subst hk
      simp [dictPop]
      exact dictGet_eq_none_of_not_mem rest k' hnotin
    · simp [dictPop, hk, dictGet, ih hnd2]

theorem mem_of_dictGet_eq_some {α : Type} (m : List (String × α)) (k : String) (v : α)
    (h : dictGet m k = some v) : (k, v) ∈ m := by
  induction m with
  | nil => simp [dictGet] at h
  | cons q rest ih =>
    obtain ⟨k', v'⟩ := q
    by_cases hk : k' = k
    · subst hk
      simp [dictGet] at h
      simp [h]
    · simp [dictGet, hk] at h
      exact List.mem_cons_of_mem _ (ih h)

/-! ### Helper lemmas about the string models and generated codes -/

theorem dropWhile_eq_self_of_all {p : Char → Bool} (l : List Char)
    (h : ∀ c ∈ l, p c = false) : l.dropWhile p = l := by
  cases l with
  | nil => rfl
  | cons c rest => simp [List.dropWhile_cons, h c (List.mem_cons_self _ _)]

theorem pyStrip_eq_self (s : String) (h : ∀ c ∈ s.data, isPySpace c = false) :
    pyStrip s = s := by
  unfold pyStrip
  rw [dropWhile_eq_self_of_all _ h,
    dropWhile_eq_self_of_all _ (fun c hc => h c (List.mem_reverse.mp hc)),
    List.reverse_reverse]

theorem map_eq_self_of_all {f : Char → Char} (l : List Char) (h : ∀ c ∈ l, f c = c) :
    l.map f = l := by
  induction l with
  | nil => rfl
  | cons c rest ih =>
    rw [List.map_cons, h c (List.mem_cons_self _ _),
      ih (fun x hx => h x (List.mem_cons_of_mem _ hx))]

theorem pyUpper_eq_self (s : String) (h : ∀ c ∈ s.data, Char.toUpper c = c) :
    pyUpper s = s := by
  unfold pyUpper
  rw [map_eq_self_of_all _ h]

theorem hexDigit_mem (n : Nat) (h : n < 16) : hexDigit n ∈ hexChars := by
  interval_cases n <;> decide

theorem hexChars_toUpper : ∀ c ∈ hexChars, Char.toUpper c ∈ upperHexChars := by decide

theorem upperHexChars_fixed :
    ∀ c ∈ upperHexChars, isPySpace c = false ∧ Char.toUpper c = c := by decide

theorem generate_chars (bytes : List Nat) (h : ∀ b ∈ bytes, b < 256) :
    ∀ c ∈ (_generate_confirmation_code bytes).data, c ∈ upperHexChars := by
  intro c hc
  have hc2 : c ∈ (bytes.flatMap (fun b => [hexDigit (b / 16), hexDigit (b % 16)])).map
      Char.toUpper := hc
  rw [List.mem_map] at hc2
  obtain ⟨d, hd, hcd⟩ := hc2
  rw [List.mem_flatMap] at hd
  obtain ⟨b, hb, hdb⟩ := hd
  have hb256 := h b hb
  have hmem : d ∈ hexChars := by
    rcases List.mem_cons.mp hdb with h1 | h1
    · subst h1
      exact hexDigit_mem _ (Nat.div_lt_of_lt_mul (by omega))
    · rcases List.mem_cons.mp h1 with h2 | h2
      · subst h2
        exact hexDigit_mem _ (Nat.mod_lt _ (by omega))
      · simp at h2
  subst hcd
  exact hexChars_toUpper d hmem

theorem normCode_generate (bytes : List Nat) (h : ∀ b ∈ bytes, b < 256) :
    normCode (_generate_confirmation_code bytes) = _generate_confirmation_code bytes := by
  have hchars := generate_chars bytes h
  unfold normCode
  rw [pyStrip_eq_self _ (fun c hc => (upperHexChars_fixed c (hchars c hc)).1)]
  exact pyUpper_eq_self _ (fun c hc => (upperHexChars_fixed c (hchars c hc)).2)

theorem generate_length (bytes : List Nat) (h : bytes.length = 3) :
    (_generate_confirmation_code bytes).length = 6 := by
  match bytes, h with
  | [a, b, c], _ =>
    show ((([a, b, c].flatMap (fun b => [hexDigit (b / 16), hexDigit (b % 16)])).map
      Char.toUpper)).length = 6
    simp

theorem confirm_eq_rejected (raw : String) (now : Int) (m : PendingMap)
    (h : dictGet (_cleanup_expired_confirmations now m) (normCode raw) = none) :
    _handle_confirm_purchase raw now m =
      (ConfirmResult.rejected, _cleanup_expired_confirmations now m) := by
  unfold _handle_confirm_purchase
  rw [h]

theorem confirm_eq_accepted (raw : String) (now : Int) (m : PendingMap) (e : PendingEntry)
    (h : dictGet (_cleanup_expired_confirmations now m) (normCode raw) = some e) :
    _handle_confirm_purchase raw now m =
      (ConfirmResult.accepted (normCode raw) e.url,
       dictPop (_cleanup_expired_confirmations now m) (normCode raw)) := by
  unfold _handle_confirm_purchase
  rw [h]

/-! ### Claim theorems: confirmation gate -/

/-- C1 (amended): a code issued by `_handle_preview_checkout`, confirmed once
while unexpired, is accepted and its record removed as part of returning it;
a second confirm with the same code is rejected and changes the map only by
the expiry sweep run before the lookup (the stronger claimed "leaves the map
unchanged" fails when another entry expires between the calls, see the
counterexample). -/
theorem C1_exactly_once (m : PendingMap) (bytes : List Nat) (url : String)
    (now1 now2 now3 : Int)
    (_hlen : bytes.length = 3) (hbytes : ∀ b ∈ bytes, b < 256)
    (hnd : (dictKeys m).Nodup)
    (hunexpired : now2 - now1 ≤ CONFIRMATION_TTL) :
    (_handle_confirm_purchase (_generate_confirmation_code bytes) now2
        (_handle_preview_checkout true (_generate_confirmation_code bytes) url now1 m).2).1 =
      ConfirmResult.accepted (_generate_confirmation_code bytes) url ∧
    dictGet (_handle_confirm_purchase (_generate_confirmation_code bytes) now2
        (_handle_preview_checkout true (_generate_confirmation_code bytes) url now1 m).2).2
      (_generate_confirmation_code bytes) = none ∧
    _handle_confirm_purchase (_generate_confirmation_code bytes) now3
        (_handle_confirm_purchase (_generate_confirmation_code bytes) now2
          (_handle_preview_checkout true (_generate_confirmation_code bytes) url now1 m).2).2 =
      (ConfirmResult.rejected,
       _cleanup_expired_confirmations now3
         (_handle_confirm_purchase (_generate_confirmation_code bytes) now2
           (_handle_preview_checkout true (_generate_confirmation_code bytes) url now1 m).2).2) := by
  have hnorm : normCode (_generate_confirmation_code bytes) =
      _generate_confirmation_code bytes := normCode_generate bytes hbytes
  have hm1 : (_handle_preview_checkout true (_generate_confirmation_code bytes) url now1 m).2 =
      dictSet (_cleanup_expired_confirmations now1 m) (_generate_confirmation_code bytes)
        { created_at := now1, url := url } := by
    simp [_handle_preview_checkout]
  have hget1 : dictGet
      (_handle_preview_checkout true (_generate_confirmation_code bytes) url now1 m).2
      (_generate_confirmation_code bytes) = some { created_at := now1, url := url } := by
    rw [hm1]
    exact dictGet_dictSet_self _ _ _
  have hnd1 : (dictKeys
      (_handle_preview_checkout true (_generate_confirmation_code bytes) url now1 m).2).Nodup := by
    rw [hm1]
    exact nodup_keys_dictSet _ _ _ (nodup_keys_filter _ _ hnd)
  have hget2 : dictGet (_cleanup_expired_confirmations now2
      (_handle_preview_checkout true (_generate_confirmation_code bytes) url now1 m).2)
      (_generate_confirmation_code bytes) = some { created_at := now1, url := url } := by
    apply dictGet_filter_some _ _ _ _ hget1
    simp only [decide_eq_true_eq]
    omega
  have hfirst : _handle_confirm_purchase (_generate_confirmation_code bytes) now2
      (_handle_preview_checkout true (_generate_confirmation_code bytes) url now1 m).2 =
      (ConfirmResult.accepted (_generate_confirmation_code bytes) url,
       dictPop (_cleanup_expired_confirmations now2
         (_handle_preview_checkout true (_generate_confirmation_code bytes) url now1 m).2)
         (_generate_confirmation_code bytes)) := by
    have h := confirm_eq_accepted (_generate_confirmation_code bytes) now2
      (_handle_preview_checkout true (_generate_confirmation_code bytes) url now1 m).2
      { created_at := now1, url := url } (by rw [hnorm]; exact hget2)
    rw [hnorm] at h
    exact h
  have hnd2 : (dictKeys (_cleanup_expired_confirmations now2
      (_handle_preview_checkout true (_generate_confirmation_code bytes) url now1 m).2)).Nodup :=
    nodup_keys_filter _ _ hnd1
  have hgone : dictGet (_handle_confirm_purchase (_generate_confirmation_code bytes) now2
      (_handle_preview_checkout true (_generate_confirmation_code bytes) url now1 m).2).2
      (_generate_confirmation_code bytes) = none := by
    rw [hfirst]
    exact dictGet_dictPop_self _ _ hnd2
  refine ⟨by rw [hfirst], hgone, ?_⟩
  have hnone : dictGet (_cleanup_expired_confirmations now3
      (_handle_confirm_purchase (_generate_confirmation_code bytes) now2
        (_handle_preview_checkout true (_generate_confirmation_code bytes) url now1 m).2).2)
      (_generate_confirmation_code bytes) = none :=
    dictGet_filter_none _ _ _ hgone
  have h3 := confirm_eq_rejected (_generate_confirmation_code bytes) now3
    (_handle_confirm_purchase (_generate_confirmation_code bytes) now2
      (_handle_preview_checkout true (_generate_confirmation_code bytes) url now1 m).2).2
    (by rw [hnorm]; exact hnone)
  exact h3

/-- C1 counterexample to the claim as stated: with another pending entry
issued at time 0, the code `"ABCDEF"` is issued at time 0 and confirmed at
time 10; the repeated confirm at time 400 is rejected, but it does not leave
the map unchanged — the sweep it runs first removes the now-expired other
entry. -/
theorem C1_counterexample :
    (_handle_confirm_purchase "ABCDEF" 400 c1AfterFirst).1 = ConfirmResult.rejected ∧
    (_handle_confirm_purchase "ABCDEF" 400 c1AfterFirst).2 ≠ c1AfterFirst := by
  decide

/-- C1 witness: the amended theorem applied to a concrete scenario. -/
theorem C1_witness :
    (_handle_confirm_purchase (_generate_confirmation_code [171, 205, 239]) 10
        (_handle_preview_checkout true (_generate_confirmation_code [171, 205, 239])
          "cart" 0 c1Map).2).1 =
      ConfirmResult.accepted (_generate_confirmation_code [171, 205, 239]) "cart" :=
  (C1_exactly_once c1Map [171, 205, 239] "cart" 0 10 20 (by decide) (by decide)
    (by decide) (by decide)).1

/-- C2: a pending confirmation whose age strictly exceeds the 300 s TTL at
confirm time is removed by the sweep run before the lookup, so the confirm is
rejected even though the normalised code matches; and the sweep removes
exactly the entries with age strictly greater than the TTL. -/
theorem C2_expiry_sweep (m : PendingMap) (raw : String) (now : Int) (e : PendingEntry)
    (hnd : (dictKeys m).Nodup)
    (hlook : dictGet m (normCode raw) = some e)
    (hexp : now - e.created_at > CONFIRMATION_TTL) :
    _handle_confirm_purchase raw now m =
      (ConfirmResult.rejected, _cleanup_expired_confirmations now m) ∧
    ∀ (now2 : Int) (m2 : PendingMap) (k : String) (v : PendingEntry),
      (k, v) ∈ _cleanup_expired_confirmations now2 m2 ↔
        ((k, v) ∈ m2 ∧ ¬ now2 - v.created_at > CONFIRMATION_TTL) := by
  constructor
  · have hnone : dictGet (_cleanup_expired_confirmations now m) (normCode raw) = none := by
      apply dictGet_filter_not _ m _ e hnd hlook
      simp only [decide_eq_false_iff_not, Decidable.not_not]
      exact hexp
    simp [_handle_confirm_purchase, hnone]
  · intro now2 m2 k v
    unfold _cleanup_expired_confirmations
    rw [List.mem_filter]
    simp

/-- C2 witness: the theorem applied to a concrete expired entry. -/
theorem C2_witness :
    _handle_confirm_purchase "AAAAAA" 301 c2Map =
      (ConfirmResult.rejected, _cleanup_expired_confirmations 301 c2Map) :=
  (C2_expiry_sweep c2Map "AAAAAA" 301 { created_at := 0, url := "u" }
    (by decide) (by decide) (by decide)).1

/-- C10: every code produced by the generator from three bytes is exactly six
characters long and drawn from the sixteen-character upper-case hexadecimal
alphabet. -/
theorem C10_code_alphabet (bytes : List Nat)
    (hlen : bytes.length = 3) (hbytes : ∀ b ∈ bytes, b < 256) :
    (_generate_confirmation_code bytes).length = 6 ∧
    (∀ c ∈ (_generate_confirmation_code bytes).data, c ∈ upperHexChars) ∧
    upperHexChars.length = 16 :=
  ⟨generate_length bytes hlen, generate_chars bytes hbytes, by decide⟩

/-- C10 witness: the theorem applied to concrete bytes. -/
theorem C10_witness :
    (_generate_confirmation_code [0, 171, 255]).length = 6 ∧
    (∀ c ∈ (_generate_confirmation_code [0, 171, 255]).data, c ∈ upperHexChars) ∧
    upperHexChars.length = 16 :=
  C10_code_alphabet [0, 171, 255] (by decide) (by decide)

/-! ### Helper lemmas about the retry loop -/

theorem resolveLoop_attempts_le (oracle : Nat → Outcome) (fuel attempt : Nat) :
    (resolveLoop oracle fuel attempt).attempts ≤ fuel := by
  induction fuel generalizing attempt with
  | zero => simp [resolveLoop]
  | succ k ih =>
    unfold resolveLoop
    cases oracle attempt with
    | parsed found sel =>
      cases found <;> simp
    | empty =>
      by_cases h : attempt < 2
      · simpa [h] using Nat.succ_le_succ (ih (attempt + 1))
      · simp [h]
    | parseError =>
      by_cases h : attempt < 2
      · simpa [h] using Nat.succ_le_succ (ih (attempt + 1))
      · simp [h]
    | timeout =>
      by_cases h : attempt < 2
      · simpa [h] using Nat.succ_le_succ (ih (attempt + 1))
      · simp [h]
    | transportError =>
      by_cases h : attempt < 2
      · simpa [h] using Nat.succ_le_succ (ih (attempt + 1))
      · simp [h]

theorem resolveLoop_attempts_pos (oracle : Nat → Outcome) (fuel attempt : Nat) :
    1 ≤ (resolveLoop oracle (fuel + 1) attempt).attempts := by
  unfold resolveLoop
  cases oracle attempt with
  | parsed found sel => cases found <;> simp
  | empty => by_cases h : attempt < 2 <;> simp [h]
  | parseError => by_cases h : attempt < 2 <;> simp [h]
  | timeout => by_cases h : attempt < 2 <;> simp [h]
  | transportError => by_cases h : attempt < 2 <;> simp [h]

theorem resolve_attempts_le_three (desc url : String) (providerOk : Bool)
    (oracle : Nat → Outcome) :
    (resolve_selector desc url providerOk oracle).attempts ≤ 3 := by
  unfold resolve_selector
  by_cases hf : truthyOpt (_fast_resolve desc url) = true
  · simp [hf]
  · simp only [Bool.not_eq_true] at hf
    cases providerOk with
    | false => simp [hf]
    | true => simpa [hf] using resolveLoop_attempts_le oracle 3 0

/-- Every value in the fast-path tables is a non-empty selector string, so a
table hit always passes the truthiness test in `resolve_selector`. -/
theorem knownValuesNonempty :
    ∀ p ∈ KNOWN_SELECTORS, ∀ q ∈ p.2, ¬ q.2 = "" := by decide

/-! ### Claim theorems: element resolver -/

/-- C3 (amended): on a static-table miss, the resolver makes at most three
transport attempts; if all three fail (empty reply, parse error, timeout, or
other transport error) it returns a not-found `None` after exactly three
attempts, sleeping the linear backoff `(attempt + 1) * 2` seconds after a
failed non-final attempt for an empty reply, a parse error or a transport
error — but, contrary to the claim as stated, not for a timeout, which is
retried without backoff (see the counterexample). -/
theorem C3_retry_policy (desc url : String) (oracle : Nat → Outcome)
    (hmiss : truthyOpt (_fast_resolve desc url) = false)
    (h0 : failsAttempt (oracle 0)) (h1 : failsAttempt (oracle 1))
    (h2 : failsAttempt (oracle 2)) :
    resolve_selector desc url true oracle =
      { result := none, attempts := 3,
        sleeps := nonTimeoutDelay (oracle 0) 0 ++ nonTimeoutDelay (oracle 1) 1 } ∧
    ∀ (providerOk : Bool) (oracle2 : Nat → Outcome),
      (resolve_selector desc url providerOk oracle2).attempts ≤ 3 := by
  refine ⟨?_, fun providerOk oracle2 => resolve_attempts_le_three desc url providerOk oracle2⟩
  unfold resolve_selector
  rcases h0 with h0 | h0 | h0 | h0 <;> rcases h1 with h1 | h1 | h1 | h1 <;>
    rcases h2 with h2 | h2 | h2 | h2 <;>
    simp [hmiss, resolveLoop, h0, h1, h2, nonTimeoutDelay, retryDelay]

/-- C3 counterexample to the claim as stated: when all three attempts time
out, the code retries without any backoff sleep — the performed delays are
`[]`, not the `[2, 4]` the claimed backoff-on-timeout would produce — while
still making exactly 3 attempts and returning not-found. -/
theorem C3_counterexample :
    (resolve_selector "zzz" "http://example.com" true (fun _ => Outcome.timeout)).attempts = 3 ∧
    (resolve_selector "zzz" "http://example.com" true (fun _ => Outcome.timeout)).result = none ∧
    (resolve_selector "zzz" "http://example.com" true (fun _ => Outcome.timeout)).sleeps = [] ∧
    ¬ (resolve_selector "zzz" "http://example.com" true
        (fun _ => Outcome.timeout)).sleeps = [2, 4] := by
  decide

/-- C3 witness: the amended theorem applied to a concrete all-transport-error
run. -/
theorem C3_witness :
    resolve_selector "zzz" "http://example.com" true (fun _ => Outcome.transportError) =
      { result := none, attempts := 3,
        sleeps := nonTimeoutDelay Outcome.transportError 0 ++
          nonTimeoutDelay Outcome.transportError 1 } :=
  (C3_retry_policy "zzz" "http://example.com" (fun _ => Outcome.transportError)
    (by decide) (Or.inr (Or.inr (Or.inr rfl))) (Or.inr (Or.inr (Or.inr rfl)))
    (Or.inr (Or.inr (Or.inr rfl)))).1

/-- C4: a first reply that parses to a well-formed object with `found=false`
makes the resolver return not-found immediately after that single attempt; in
contrast an empty or malformed first reply leads to at least a second
attempt. -/
theorem C4_found_false_short_circuit (desc url sel : String) (oracle : Nat → Outcome)
    (hmiss : truthyOpt (_fast_resolve desc url) = false)
    (h0 : oracle 0 = Outcome.parsed false sel) :
    resolve_selector desc url true oracle =
      { result := none, attempts := 1, sleeps := [] } ∧
    ∀ (oracle2 : Nat → Outcome),
      (oracle2 0 = Outcome.empty ∨ oracle2 0 = Outcome.parseError) →
        2 ≤ (resolve_selector desc url true oracle2).attempts := by
  constructor
  · simp [resolve_selector, hmiss, resolveLoop, h0]
  · intro oracle2 h
    rcases h with h | h <;>
      simpa [resolve_selector, hmiss, resolveLoop, h] using
        Nat.succ_le_succ (resolveLoop_attempts_pos oracle2 1 1)

/-- C4 witness: the theorem applied to a concrete run. -/
theorem C4_witness :
    resolve_selector "zzz" "http://example.com" true
        (fun _ => Outcome.parsed false "#x") =
      { result := none, attempts := 1, sleeps := [] } :=
  (C4_found_false_short_circuit "zzz" "http://example.com" "#x"
    (fun _ => Outcome.parsed false "#x") (by decide) rfl).1

/-- C5: a description whose lower-cased, stripped form is a key of the static
table for the retailer detected from the URL resolves to the selector of the table with zero transport attempts, identically for every transport
oracle and provider state (hence deterministically). -/
theorem C5_static_table_hit (desc url retailer sel : String)
    (table : List (String × String))
    (hdet : _detect_retailer url = some retailer)
    (htab : dictGet KNOWN_SELECTORS retailer = some table)
    (hsel : dictGet table (pyStrip (pyLower desc)) = some sel) :
    ∀ (providerOk : Bool) (oracle : Nat → Outcome),
      resolve_selector desc url providerOk oracle =
        { result := some sel, attempts := 0, sleeps := [] } := by
  intro providerOk oracle
  have hfast : _fast_resolve desc url = some sel := by
    simp [_fast_resolve, hdet, htab, hsel]
  have hne : ¬ sel = "" :=
    knownValuesNonempty _ (mem_of_dictGet_eq_some _ _ _ htab) _
      (mem_of_dictGet_eq_some _ _ _ hsel)
  simp [resolve_selector, truthyOpt, hfast, hne]

/-- C5 witness: the scenario of the spec — resolving `"Add to Cart"` on an Amazon
product URL hits the table and returns `#add-to-cart-button` with zero
transport calls, for an arbitrary oracle. -/
theorem C5_witness :
    resolve_selector "Add to Cart" "https://www.amazon.com/dp/B012345678" false
        (fun _ => Outcome.timeout) =
      { result := some "#add-to-cart-button", attempts := 0, sleeps := [] } :=
  C5_static_table_hit "Add to Cart" "https://www.amazon.com/dp/B012345678" "amazon"
    "#add-to-cart-button" amazonSelectors (by decide) (by decide) (by decide)
    false (fun _ => Outcome.timeout)

/-! ### Helper lemmas about truncation and the counterexample markup -/

theorem pySlice_length (s : String) (a b : Nat) :
    (pySlice s a b).length = min (b - a) (s.length - a) := by
  show ((s.data.drop a).take (b - a)).length = min (b - a) (s.data.length - a)
  rw [List.length_take, List.length_drop]

theorem htmlCE_length : htmlCE.length = 100001 := by
  show htmlCE.data.length = 100001
  rw [show htmlCE.data =
      ['x', 'y', '<', 'b', 'o', 'd', 'y', '>'] ++ List.replicate 99993 'a' from rfl,
    List.length_append, List.length_replicate]
  rfl

theorem htmlCE_find : pyFind htmlCE bodyPat = 2 := rfl

theorem htmlCE_core_length : (truncCore htmlCE).length = 99999 := by
  unfold truncCore
  rw [htmlCE_find, if_pos (by norm_num), show Int.toNat 2 = 2 from rfl,
    pySlice_length, htmlCE_length]
  norm_num [MAX_HTML]

theorem htmlCE_truncate : truncate_html htmlCE = truncCore htmlCE ++ truncMarker := by
  unfold truncate_html
  rw [if_pos (by rw [htmlCE_length]; norm_num [MAX_HTML])]

/-! ### Claim theorems: markup truncation (C8) -/

/-- C8 (amended): markup longer than 100 000 characters is replaced in the
prompt by a slice of AT MOST 100 000 characters — beginning at the body
region when `find("<body")` lands past the start, the exact 100 000-character
head otherwise — with the truncation marker appended, and markup of at most
100 000 characters is included unmodified; the claimed "100 000-character
slice" is not met when fewer than 100 000 characters remain after the body
tag (see the counterexample). -/
theorem C8_truncation (page_html description element_type : String) :
    (MAX_HTML < page_html.length →
      truncate_html page_html = truncCore page_html ++ truncMarker ∧
      (truncCore page_html).length ≤ MAX_HTML ∧
      (0 < pyFind page_html bodyPat →
        truncCore page_html =
          pySlice page_html (pyFind page_html bodyPat).toNat
            ((pyFind page_html bodyPat).toNat + MAX_HTML)) ∧
      (¬ 0 < pyFind page_html bodyPat →
        truncCore page_html = pySlice page_html 0 MAX_HTML ∧
        (truncCore page_html).length = MAX_HTML)) ∧
    (page_html.length ≤ MAX_HTML → truncate_html page_html = page_html) ∧
    build_prompt description element_type page_html =
      promptBefore description element_type ++ truncate_html page_html ++ promptAfter := by
  refine ⟨fun h => ⟨?_, ?_, ?_, ?_⟩, fun h => ?_, rfl⟩
  · unfold truncate_html
    rw [if_pos h]
  · unfold truncCore
    split
    · rw [pySlice_length]
      simp only [MAX_HTML]
      omega
    · rw [pySlice_length]
      simp only [MAX_HTML]
      omega
  · intro hb
    unfold truncCore
    rw [if_pos hb]
  · intro hb
    unfold truncCore
    rw [if_neg hb]
    refine ⟨rfl, ?_⟩
    rw [pySlice_length]
    simp only [MAX_HTML] at h ⊢
    omega
  · unfold truncate_html
    rw [if_neg (by omega)]

/-- C8 counterexample to the claim as stated: a 100 001-character markup with
a body tag present (at index 2) is truncated to the 99 999-character slice
from the body region plus the marker, so the prompt does not contain a
100 000-character slice of the markup. -/
theorem C8_counterexample :
    100000 < htmlCE.length ∧
    (0 : Int) < pyFind htmlCE bodyPat ∧
    truncate_html htmlCE = truncCore htmlCE ++ truncMarker ∧
    (truncCore htmlCE).length = 99999 ∧
    ¬ (truncCore htmlCE).length = 100000 := by
  refine ⟨by rw [htmlCE_length]; norm_num, by rw [htmlCE_find]; norm_num,
    htmlCE_truncate, htmlCE_core_length, by rw [htmlCE_core_length]; norm_num⟩

/-- C8 witness: the amended theorem applied to a short markup (kept as is)
and to the long concrete markup (cut and marked). -/
theorem C8_witness :
    truncate_html (String.mk ['h', 'i']) = String.mk ['h', 'i'] ∧
    truncate_html htmlCE = truncCore htmlCE ++ truncMarker :=
  ⟨(C8_truncation (String.mk ['h', 'i']) "d" "t").2.1 (by decide),
   ((C8_truncation htmlCE "d" "t").1 (by rw [htmlCE_length]; norm_num [MAX_HTML])).1⟩

/-! ### Helper lemmas about browser teardown -/

theorem tryPass_ok (e : Except Unit Unit) : tryPass e = Except.ok () := by
  cases e <;> rfl

theorem closeTabsLoop_ok (fails : Nat → Bool) (i : Nat) (l : List Tab) :
    closeTabsLoop fails i l = Except.ok () := by
  induction l generalizing i with
  | nil => rfl
  | cons t rest ih =>
    show (tryPass (attempt (fails i)) >>= fun _ => closeTabsLoop fails (i + 1) rest) =
      Except.ok ()
    rw [tryPass_ok]
    exact ih (i + 1)

theorem close_eq (f : CloseFailures) (st : BrowserState) :
    close f st = Except.ok closedState := by
  show (closeTabsLoop f.pageFail 0 st.tabs >>= fun _ => _) = Except.ok closedState
  rw [closeTabsLoop_ok]
  show (_ : Except Unit BrowserState) = Except.ok closedState
  cases hc : st.contextOpen <;> cases hb : st.browserOpen <;> cases hp : st.playwrightOpen <;>
    (simp only [hc, hb, hp, tryPass_ok, if_true, if_false, Bool.false_eq_true]; rfl)

/-! ### Claim theorems: browser session -/

/-- C6: the invariant "the active index is a valid position iff the tab
sequence is non-empty, and is the −1 sentinel iff it is empty" holds in the
initial state and is preserved by opening a tab (including a failed
navigation), opening in a new tab, switching tabs, listing tabs, and
teardown. -/
theorem C6_tab_invariant :
    TabInv initState ∧
    (∀ (st : BrowserState) (navOk : Bool) (p : Tab),
      TabInv st → TabInv (new_page st navOk p).2) ∧
    (∀ (st : BrowserState) (navOk : Bool) (p : Tab),
      TabInv st → TabInv (open_in_new_tab st navOk p).2) ∧
    (∀ (st : BrowserState) (i : Int), TabInv st → TabInv (switch_tab st i).2) ∧
    (∀ (st : BrowserState), TabInv st → TabInv (get_tab_list st).2) ∧
    (∀ (st : BrowserState) (f : CloseFailures) (st2 : BrowserState),
      close f st = Except.ok st2 → TabInv st2) := by
  have hnew : ∀ (st : BrowserState) (navOk : Bool) (p : Tab),
      TabInv st → TabInv (new_page st navOk p).2 := by
    intro st navOk p h
    cases navOk with
    | false =>
      show TabInv { st with contextOpen := true, browserOpen := true, playwrightOpen := true }
      unfold TabInv at h ⊢
      exact h
    | true =>
      show TabInv
        { tabs := st.tabs ++ [p], active_tab_index := (st.tabs.length : Int),
          contextOpen := true, browserOpen := true, playwrightOpen := true }
      unfold TabInv
      dsimp only
      have hnn := Int.natCast_nonneg st.tabs.length
      constructor
      · constructor
        · intro _
          simp
        · intro _
          refine ⟨hnn, ?_⟩
          have hl : (st.tabs ++ [p]).length = st.tabs.length + 1 := by simp
          rw [hl]
          push_cast
          omega
      · constructor
        · intro habs
          exfalso
          rw [habs] at hnn
          exact absurd hnn (by decide)
        · intro habs
          exact absurd habs (by simp)
  refine ⟨by decide, hnew, fun st navOk p h => hnew st navOk p h, ?_, ?_, ?_⟩
  · intro st i h
    unfold switch_tab
    split
    · rename_i hcond
      show TabInv { st with active_tab_index := i }
      unfold TabInv
      dsimp only
      obtain ⟨h0, h1⟩ := hcond
      have hlen : 0 < st.tabs.length := by
        by_contra hle
        simp only [Nat.not_lt, Nat.le_zero] at hle
        rw [hle] at h1
        simp at h1
        omega
      refine ⟨⟨fun _ => List.ne_nil_of_length_pos hlen, fun _ => ⟨h0, h1⟩⟩,
        ⟨fun habs => absurd habs (by omega), fun habs => ?_⟩⟩
      rw [habs] at hlen
      simp at hlen
    · exact h
  · intro st h
    exact h
  · intro st f st2 hok
    rw [close_eq] at hok
    cases hok
    decide

/-- C6 witness: the invariant holds concretely after opening a tab in the
initial state and switching to it. -/
theorem C6_witness :
    TabInv initState ∧ TabInv (new_page initState true tabA).2 ∧
    TabInv (switch_tab (new_page initState true tabA).2 0).2 := by
  have h := C6_tab_invariant
  refine ⟨h.1, h.2.1 initState true tabA h.1, ?_⟩
  exact h.2.2.2.1 (new_page initState true tabA).2 0 (h.2.1 initState true tabA h.1)

/-- C7: `close()` returns normally for every session state and failure
pattern of the sub-closures, and leaves the tab collection empty with the
active index at the −1 sentinel (and every handle cleared). -/
theorem C7_close_best_effort (st : BrowserState) (f : CloseFailures) :
    close f st = Except.ok closedState ∧
    closedState.tabs = [] ∧ closedState.active_tab_index = -1 :=
  ⟨close_eq f st, rfl, rfl⟩

/-- C9: when navigation raises while opening a tab, the error propagates and
the tab collection and active index are exactly as before the call; and
`open_in_new_tab` delegates to `new_page`. -/
theorem C9_nav_failure (st : BrowserState) (p : Tab) :
    (new_page st false p).1 = Except.error () ∧
    (new_page st false p).2.tabs = st.tabs ∧
    (new_page st false p).2.active_tab_index = st.active_tab_index ∧
    open_in_new_tab st false p = new_page st false p :=
  ⟨rfl, rfl, rfl, rfl⟩

end ShoppingTool
